import Mathlib

/-!
Verification of the JioPay retrieval-augmented question-answering service
(src/main.py) against its specification.

The service is embedded shallowly: external collaborators (the FAISS
vector store search, the hosted completion model) are oracle functions
passed in, exceptions are values of `Except String`, and each request
additionally yields a `Trace` recording the outbound calls it made.
-/

namespace JioPayRag

/-- A retrieved document chunk: its text plus a metadata dictionary,
modelled as an association list from string keys to string values. -/
structure Doc where
  page_content : String
  metadata : List (String × String)
deriving Repr, DecidableEq

/-- Python dictionary subscript lookup: the value at the first matching key,
`none` when the key is absent (a KeyError in the source). -/
def dictGet (m : List (String × String)) (k : String) : Option String :=
  match m with
  | [] => none
  | (k₀, v) :: rest => if k₀ = k then some v else dictGet rest k

/-- The textual message of the KeyError raised by a subscript on a metadata
dictionary lacking the key source_url (Python renders the key quoted). -/
def keyErrorMsg : String := "\x27source_url\x27"

/-- The block built for one document inside the joined context string:
`Content: <page_content>\nSource: <metadata[source_url]>`.
Fails with a KeyError when the metadata lacks the source_url key. -/
def docBlock (doc : Doc) : Except String String :=
  match dictGet doc.metadata "source_url" with
  | none => .error keyErrorMsg
  | some url => .ok ("Content: " ++ doc.page_content ++ "\nSource: " ++ url)

/-- `retrieved_content`: the per-document blocks joined with a blank line
(the Python `"\n\n".join(...)` over the comprehension at lines 64-67). -/
def buildRetrievedContent (docs : List Doc) : Except String String := do
  let blocks ← docs.mapM docBlock
  pure (String.intercalate "\n\n" blocks)

/-- The f-string template of lines 70-76 of src/main.py, byte for byte,
including the indentation carried by the triple-quoted literal. -/
def buildPrompt (retrieved_content query : String) : String :=
  "You are a JioPay expert assistant. Use ONLY this context:\n        \n        "
    ++ retrieved_content
    ++ "\n        \n        Question: "
    ++ query
    ++ "\n        \n        Provide a step-by-step answer with source references. If unsure, say \"I don\x27t know\"."

/-- One chat-completion request as handed to the Groq client at lines 78-84:
a model name, a single system message, and a sampling temperature. -/
structure ChatRequest where
  model : String
  system_content : String
  temperature : ℚ
deriving Repr, DecidableEq

/-- The chat-completion request the handler builds from the assembled prompt. -/
def mkChatRequest (prompt : String) : ChatRequest :=
  { model := "llama3-8b-8192", system_content := prompt, temperature := 1/10 }

/-- The Groq client object: it merely stores the key read from the
environment; the constructor at line 47 performs no validation. -/
structure GroqClient where
  api_key : Option String
deriving Repr, DecidableEq

/-- The hosted completion API as reached through the Groq client: a request
without an API key fails with an authentication error; an authenticated
request is answered by the external model, an oracle mapping requests to a
generated text or the text of a raised exception. -/
def groqCreate (client : GroqClient) (llm : ChatRequest → Except String String)
    (req : ChatRequest) : Except String String :=
  match client.api_key with
  | none => .error "Invalid API Key"
  | some _ => llm req

/-- The `similarity_search` method of a loaded vector store: an oracle from
a query and a count k to retrieved documents or a raised error. -/
def SearchFn : Type := String → Nat → Except String (List Doc)

/-- Process-wide state established at startup: the vector store when it
loaded (`none` after a load failure, line 43) and the Groq client. -/
structure AppState where
  vector_store : Option SearchFn
  client : GroqClient

/-- Startup of the process (lines 34-47): the FAISS load may fail, in which
case the store is left unset; the Groq client is built from whatever key the
environment holds. Startup itself is total: it always yields a state. -/
def startup (loadResult : Except String SearchFn) (env_groq_api_key : Option String) :
    AppState :=
  { vector_store := match loadResult with
      | .ok vs => some vs
      | .error _ => none
    client := { api_key := env_groq_api_key } }

/-- The request body of POST /ask. -/
structure QueryRequest where
  query : String
deriving Repr, DecidableEq

/-- Outcome of the ask handler: a JSON body (generated text plus the list of
source metadata dictionaries) or an HTTPException with status and detail. -/
inductive AskResult where
  | ok (response : String) (sources : List (List (String × String)))
  | httpError (status : Nat) (detail : String)
deriving Repr, DecidableEq

/-- The outbound calls one request made: searches (query, k) against the
vector store, and chat-completion requests to the hosted model. -/
structure Trace where
  retrievalCalls : List (String × Nat)
  completionCalls : List ChatRequest
deriving Repr, DecidableEq

/-- The empty trace: no outbound call. -/
def Trace.empty : Trace := { retrievalCalls := [], completionCalls := [] }

/-- The POST /ask handler (lines 52-91): reject when the store never loaded;
otherwise retrieve with k = 3, assemble the context and prompt, call the
completion API, and answer with the generated text and the metadata of each
retrieved document, any raised exception becoming HTTP 500 with its text. -/
def ask (state : AppState) (llm : ChatRequest → Except String String)
    (query_request : QueryRequest) : AskResult × Trace :=
  match state.vector_store with
  | none => (.httpError 500 "FAISS vector store not loaded", Trace.empty)
  | some vs =>
    let query := query_request.query
    match vs query 3 with
    | .error e => (.httpError 500 e,
        { retrievalCalls := [(query, 3)], completionCalls := [] })
    | .ok retrieved_docs =>
      match buildRetrievedContent retrieved_docs with
      | .error e => (.httpError 500 e,
          { retrievalCalls := [(query, 3)], completionCalls := [] })
      | .ok retrieved_content =>
        let req := mkChatRequest (buildPrompt retrieved_content query)
        match groqCreate state.client llm req with
        | .error e => (.httpError 500 e,
            { retrievalCalls := [(query, 3)], completionCalls := [req] })
        | .ok text =>
          (.ok text (retrieved_docs.map (fun doc => doc.metadata)),
           { retrievalCalls := [(query, 3)], completionCalls := [req] })

/-- The GET / health-check handler (lines 93-95): it reads nothing of the
process state and returns the fixed body. -/
def health_check (_state : AppState) : List (String × String) :=
  [("status", "ok")]

/-- One request step at the HTTP layer: the handler runs and the process
state is returned unchanged — no handler in src/main.py assigns
`vector_store` or any other module-level binding. -/
def processRequest (state : AppState) (llm : ChatRequest → Except String String)
    (q : QueryRequest) : AskResult × Trace × AppState :=
  let r := ask state llm q
  (r.1, r.2, state)

/-- Run a whole sequence of /ask requests through the process, collecting
each response and threading the state. -/
def runRequests (state : AppState) (llm : ChatRequest → Except String String) :
    List QueryRequest → List AskResult × AppState
  | [] => ([], state)
  | q :: qs =>
    let step := processRequest state llm q
    let rest := runRequests step.2.2 llm qs
    (step.1 :: rest.1, rest.2)

/-- A mocked retriever for concrete runs: always returns no documents. -/
def emptySearch : SearchFn := fun _ _ => .ok []

/-- A mocked completion model for concrete runs: always answers the fixed string. -/
def mockLlm : ChatRequest → Except String String := fun _ => .ok "Mocked answer."

/-- A concrete ready state built over the mocked empty retriever and a set key. -/
def mockEmptyState : AppState :=
  { vector_store := some emptySearch, client := { api_key := some "gsk-test" } }

/-! ### Helper lemmas on the context-building step -/

/-- When every retrieved document carries the source_url key, the comprehension
of blocks succeeds and yields exactly one `Content / Source` block per document. -/
theorem docBlocks_ok (docs : List Doc) (u : Doc → String)
    (h : ∀ d ∈ docs, dictGet d.metadata "source_url" = some (u d)) :
    docs.mapM docBlock =
      .ok (docs.map (fun d => "Content: " ++ d.page_content ++ "\nSource: " ++ u d)) := by
  induction docs with
  | nil => rfl
  | cons d ds ih =>
    have hd : dictGet d.metadata "source_url" = some (u d) := h d (by simp)
    have hds : ∀ x ∈ ds, dictGet x.metadata "source_url" = some (u x) :=
      fun x hx => h x (by simp [hx])
    simp only [List.mapM_cons, ih hds, docBlock, hd, List.map_cons]
    rfl

/-- When some retrieved document lacks the source_url key, the comprehension of
blocks raises the KeyError. -/
theorem docBlocks_missing (docs : List Doc)
    (h : ∃ d ∈ docs, dictGet d.metadata "source_url" = none) :
    docs.mapM docBlock = .error keyErrorMsg := by
  induction docs with
  | nil => simp at h
  | cons d ds ih =>
    rcases h with ⟨w, hw, hnone⟩
    rcases List.mem_cons.mp hw with rfl | hmem
    · simp only [List.mapM_cons, docBlock, hnone]
      rfl
    · by_cases hd : dictGet d.metadata "source_url" = none
      · simp only [List.mapM_cons, docBlock, hd]
        rfl
      · rcases Option.ne_none_iff_exists.mp hd with ⟨url, hurl⟩
        simp only [List.mapM_cons, docBlock, ← hurl, ih ⟨w, hmem, hnone⟩]
        rfl

/-! ### The claims -/

/-- C2: when the vector store failed to load, every POST /ask request fails
immediately with HTTP 500 and the fixed message, whatever the query, and no
retrieval or completion call is made. -/
theorem ask_unavailable (state : AppState) (llm : ChatRequest → Except String String)
    (q : QueryRequest) (h : state.vector_store = none) :
    ask state llm q = (.httpError 500 "FAISS vector store not loaded", Trace.empty) := by
  simp [ask, h]

/-- C2 witness. -/
theorem ask_unavailable_witness :
    ask { vector_store := none, client := { api_key := some "k" } }
        (fun _ => .ok "unused") { query := "How do I add money to JioPay wallet?" } =
      (.httpError 500 "FAISS vector store not loaded", Trace.empty) :=
  ask_unavailable _ _ _ rfl

/-- C7: the GET / health check returns the fixed body for every process
state, loaded or not, independent of any downstream component. -/
theorem health_check_always_ok (state : AppState) :
    health_check state = [("status", "ok")] := rfl

/-- C1: when the store is loaded and retrieval and completion succeed, the
handler answers with the generated text as `response` and the retrieved
documents' metadata dictionaries, in retrieval order, as `sources`; hence as
many sources as retrieved documents, at most 3 under the retriever contract,
each metadata dictionary passed through unchanged. -/
theorem ask_success (state : AppState) (llm : ChatRequest → Except String String)
    (q : QueryRequest) (vs : SearchFn) (docs : List Doc) (content text : String)
    (hvs : state.vector_store = some vs)
    (hsearch : vs q.query 3 = .ok docs)
    (hlen : docs.length ≤ 3)
    (hcontent : buildRetrievedContent docs = .ok content)
    (hllm : groqCreate state.client llm (mkChatRequest (buildPrompt content q.query)) =
      .ok text) :
    (ask state llm q).1 = .ok text (docs.map (fun d => d.metadata)) ∧
    (docs.map (fun d => d.metadata)).length = docs.length ∧
    (docs.map (fun d => d.metadata)).length ≤ 3 := by
  refine ⟨?_, by simp, by simp [hlen]⟩
  simp [ask, hvs, hsearch, hcontent, hllm]

/-- C1 witness. -/
theorem ask_success_witness :
    (ask { vector_store := some (fun _ _ => .ok
            [{ page_content := "Add money via UPI.",
               metadata := [("source_url", "https://jiopay.example/add-money"),
                            ("title", "Add Money")] },
             { page_content := "Open the wallet tab.",
               metadata := [("source_url", "https://jiopay.example/wallet")] }]),
           client := { api_key := some "gsk-test" } }
        (fun _ => .ok "Mocked answer.")
        { query := "How do I add money to JioPay wallet?" }).1 =
      .ok "Mocked answer."
        [[("source_url", "https://jiopay.example/add-money"), ("title", "Add Money")],
         [("source_url", "https://jiopay.example/wallet")]] :=
  (ask_success
    { vector_store := some (fun _ _ => .ok
        [{ page_content := "Add money via UPI.",
           metadata := [("source_url", "https://jiopay.example/add-money"),
                        ("title", "Add Money")] },
         { page_content := "Open the wallet tab.",
           metadata := [("source_url", "https://jiopay.example/wallet")] }]),
      client := { api_key := some "gsk-test" } }
    (fun _ => .ok "Mocked answer.")
    { query := "How do I add money to JioPay wallet?" }
    (fun _ _ => .ok
        [{ page_content := "Add money via UPI.",
           metadata := [("source_url", "https://jiopay.example/add-money"),
                        ("title", "Add Money")] },
         { page_content := "Open the wallet tab.",
           metadata := [("source_url", "https://jiopay.example/wallet")] }])
    [{ page_content := "Add money via UPI.",
       metadata := [("source_url", "https://jiopay.example/add-money"),
                    ("title", "Add Money")] },
     { page_content := "Open the wallet tab.",
       metadata := [("source_url", "https://jiopay.example/wallet")] }]
    ("Content: Add money via UPI.\nSource: https://jiopay.example/add-money\n\nContent: Open the wallet tab.\nSource: https://jiopay.example/wallet")
    "Mocked answer." rfl rfl (by decide) rfl rfl).1

/-- C3: an exception raised during retrieval or during the completion call
becomes HTTP 500 with the exception text as `detail`, and no success body —
in particular no partial answer or partial source list — is returned. -/
theorem ask_downstream_error (state : AppState) (llm : ChatRequest → Except String String)
    (q : QueryRequest) (vs : SearchFn) (e : String)
    (hvs : state.vector_store = some vs)
    (herr : vs q.query 3 = .error e ∨
      ∃ docs content, vs q.query 3 = .ok docs ∧
        buildRetrievedContent docs = .ok content ∧
        groqCreate state.client llm (mkChatRequest (buildPrompt content q.query)) =
          .error e) :
    (ask state llm q).1 = .httpError 500 e ∧
    ∀ r s, (ask state llm q).1 ≠ .ok r s := by
  have hmain : (ask state llm q).1 = .httpError 500 e := by
    rcases herr with hsearch | ⟨docs, content, hsearch, hcontent, hllm⟩
    · simp [ask, hvs, hsearch]
    · simp [ask, hvs, hsearch, hcontent, hllm]
  exact ⟨hmain, fun r s h => by rw [hmain] at h; exact AskResult.noConfusion h⟩

/-- C3 witness (the completion client raises). -/
theorem ask_downstream_error_witness :
    (ask { vector_store := some (fun _ _ => .ok []),
           client := { api_key := some "gsk-test" } }
        (fun _ => .error "rate limit exceeded") { query := "hi" }).1 =
      .httpError 500 "rate limit exceeded" :=
  (ask_downstream_error
    { vector_store := some (fun _ _ => .ok []),
      client := { api_key := some "gsk-test" } }
    (fun _ => .error "rate limit exceeded") { query := "hi" }
    (fun _ _ => .ok []) "rate limit exceeded" rfl
    (Or.inr ⟨[], "", rfl, rfl, rfl⟩)).1

/-- C5: a missing completion API key does not fail startup — `startup` is a
total function whose resulting client merely stores the absent key — while
every /ask request that reaches the completion call then fails downstream
with HTTP 500. -/
theorem startup_without_key (loadResult : Except String SearchFn)
    (llm : ChatRequest → Except String String) (q : QueryRequest)
    (vs : SearchFn) (docs : List Doc) (content : String)
    (hvs : (startup loadResult none).vector_store = some vs)
    (hsearch : vs q.query 3 = .ok docs)
    (hcontent : buildRetrievedContent docs = .ok content) :
    (startup loadResult none).client.api_key = none ∧
    (ask (startup loadResult none) llm q).1 = .httpError 500 "Invalid API Key" := by
  have hkey : (startup loadResult none).client.api_key = none := rfl
  refine ⟨rfl, ?_⟩
  simp [ask, hvs, hsearch, hcontent, groqCreate, hkey]

/-- C5 witness. -/
theorem startup_without_key_witness :
    (startup (Except.ok (fun _ _ => Except.ok ([] : List Doc))) none).client.api_key =
      none ∧
    (ask (startup (Except.ok (fun _ _ => Except.ok ([] : List Doc))) none)
        (fun _ => .ok "unused") { query := "hi" }).1 =
      .httpError 500 "Invalid API Key" :=
  startup_without_key (Except.ok (fun _ _ => Except.ok ([] : List Doc)))
    (fun _ => .ok "unused") { query := "hi" } _ [] "" rfl rfl rfl

/-- C6: once unavailable, always unavailable — across any sequence of /ask
requests the state keeps `vector_store = none` (no handler assigns it) and
every response is the fixed HTTP 500 unavailability error. -/
theorem unavailable_forever (state : AppState) (llm : ChatRequest → Except String String)
    (qs : List QueryRequest) (h : state.vector_store = none) :
    (runRequests state llm qs).2.vector_store = none ∧
    ∀ r ∈ (runRequests state llm qs).1, r = .httpError 500 "FAISS vector store not loaded" := by
  induction qs generalizing state with
  | nil => exact ⟨h, by simp [runRequests]⟩
  | cons q qs ih =>
    have hstep : processRequest state llm q =
        ((.httpError 500 "FAISS vector store not loaded" : AskResult),
          Trace.empty, state) := by
      simp [processRequest, ask, h]
    rcases ih state h with ⟨hstate, hall⟩
    refine ⟨?_, ?_⟩
    · simpa [runRequests, hstep] using hstate
    · intro r hr
      simp only [runRequests, hstep, List.mem_cons] at hr
      rcases hr with rfl | hr
      · rfl
      · exact hall r hr

/-- C6 witness. -/
theorem unavailable_forever_witness :
    (runRequests { vector_store := none, client := { api_key := some "k" } }
        (fun _ => .ok "unused")
        [{ query := "a" }, { query := "b" }]).2.vector_store = none ∧
    ∀ r ∈ (runRequests { vector_store := none, client := { api_key := some "k" } }
        (fun _ => .ok "unused")
        [{ query := "a" }, { query := "b" }]).1,
      r = .httpError 500 "FAISS vector store not loaded" :=
  unavailable_forever _ _ _ rfl

/-- C4: the prompt handed to the completion client is the fixed template —
persona instruction, then one `Content: ...\nSource: ...` block per retrieved
document in order separated by a blank line, then the literal question, then
the step-by-step / admit-ignorance instruction — spelled out here literally
rather than through `buildPrompt`. -/
theorem ask_prompt_template (state : AppState) (llm : ChatRequest → Except String String)
    (q : QueryRequest) (vs : SearchFn) (docs : List Doc) (u : Doc → String)
    (hvs : state.vector_store = some vs)
    (hsearch : vs q.query 3 = .ok docs)
    (hurls : ∀ d ∈ docs, dictGet d.metadata "source_url" = some (u d)) :
    (ask state llm q).2.completionCalls =
      [{ model := "llama3-8b-8192",
         system_content :=
           "You are a JioPay expert assistant. Use ONLY this context:\n        \n        "
             ++ String.intercalate "\n\n"
                 (docs.map (fun d => "Content: " ++ d.page_content ++ "\nSource: " ++ u d))
             ++ "\n        \n        Question: "
             ++ q.query
             ++ "\n        \n        Provide a step-by-step answer with source references. If unsure, say \"I don\x27t know\".",
         temperature := 1/10 }] := by
  have hcontent : buildRetrievedContent docs =
      .ok (String.intercalate "\n\n"
        (docs.map (fun d => "Content: " ++ d.page_content ++ "\nSource: " ++ u d))) := by
    unfold buildRetrievedContent
    rw [docBlocks_ok docs u hurls]
    rfl
  have hcalls : ∀ x : Except String String,
      groqCreate state.client llm
        (mkChatRequest (buildPrompt (String.intercalate "\n\n"
          (docs.map (fun d => "Content: " ++ d.page_content ++ "\nSource: " ++ u d)))
          q.query)) = x →
      (ask state llm q).2.completionCalls =
        [mkChatRequest (buildPrompt (String.intercalate "\n\n"
          (docs.map (fun d => "Content: " ++ d.page_content ++ "\nSource: " ++ u d)))
          q.query)] := by
    intro x hx
    cases x with
    | error e => simp [ask, hvs, hsearch, hcontent, hx]
    | ok t => simp [ask, hvs, hsearch, hcontent, hx]
  exact hcalls _ rfl

/-- C4 witness. -/
theorem ask_prompt_template_witness :
    (ask { vector_store := some (fun _ _ => .ok
            [{ page_content := "Add money via UPI.",
               metadata := [("source_url", "https://jiopay.example/add-money")] }]),
           client := { api_key := some "gsk-test" } }
        (fun _ => .ok "Mocked answer.") { query := "How do I add money?" }).2.completionCalls =
      [{ model := "llama3-8b-8192",
         system_content :=
           "You are a JioPay expert assistant. Use ONLY this context:\n        \n        "
             ++ String.intercalate "\n\n"
                 (([{ page_content := "Add money via UPI.",
                      metadata := [("source_url", "https://jiopay.example/add-money")] }] :
                    List Doc).map
                   (fun d => "Content: " ++ d.page_content ++ "\nSource: "
                     ++ "https://jiopay.example/add-money"))
             ++ "\n        \n        Question: "
             ++ "How do I add money?"
             ++ "\n        \n        Provide a step-by-step answer with source references. If unsure, say \"I don\x27t know\".",
         temperature := 1/10 }] :=
  ask_prompt_template
    { vector_store := some (fun _ _ => .ok
        [{ page_content := "Add money via UPI.",
           metadata := [("source_url", "https://jiopay.example/add-money")] }]),
      client := { api_key := some "gsk-test" } }
    (fun _ => .ok "Mocked answer.") { query := "How do I add money?" }
    (fun _ _ => .ok
        [{ page_content := "Add money via UPI.",
           metadata := [("source_url", "https://jiopay.example/add-money")] }])
    [{ page_content := "Add money via UPI.",
       metadata := [("source_url", "https://jiopay.example/add-money")] }]
    (fun _ => "https://jiopay.example/add-money") rfl rfl (by
      intro d hd
      simp only [List.mem_singleton] at hd
      subst hd
      rfl)

/-- C8: the handler caches nothing — it leaves the process state untouched,
a successful request makes exactly one retrieval call and one completion
call, and an identical second request replays the whole pipeline with its
own single retrieval and completion call and the very same outcome. -/
theorem ask_no_caching (state : AppState) (llm : ChatRequest → Except String String)
    (q : QueryRequest) (vs : SearchFn) (docs : List Doc) (content text : String)
    (hvs : state.vector_store = some vs)
    (hsearch : vs q.query 3 = .ok docs)
    (hcontent : buildRetrievedContent docs = .ok content)
    (hllm : groqCreate state.client llm (mkChatRequest (buildPrompt content q.query)) =
      .ok text) :
    (processRequest state llm q).2.2 = state ∧
    (processRequest state llm q).2.1.retrievalCalls.length = 1 ∧
    (processRequest state llm q).2.1.completionCalls.length = 1 ∧
    processRequest (processRequest state llm q).2.2 llm q = processRequest state llm q := by
  refine ⟨rfl, ?_, ?_, rfl⟩ <;>
    simp [processRequest, ask, hvs, hsearch, hcontent, hllm]

/-- C8 witness. -/
theorem ask_no_caching_witness :
    (processRequest mockEmptyState mockLlm { query := "hi" }).2.2 = mockEmptyState ∧
    (processRequest mockEmptyState mockLlm { query := "hi" }).2.1.retrievalCalls.length = 1 ∧
    (processRequest mockEmptyState mockLlm { query := "hi" }).2.1.completionCalls.length = 1 ∧
    processRequest (processRequest mockEmptyState mockLlm { query := "hi" }).2.2
        mockLlm { query := "hi" } =
      processRequest mockEmptyState mockLlm { query := "hi" } :=
  ask_no_caching mockEmptyState mockLlm { query := "hi" } emptySearch [] ""
    "Mocked answer." rfl rfl rfl rfl

/-- C9: when a retrieved document lacks the source_url metadata key, the
whole request fails with HTTP 500 carrying the KeyError text, the completion
client is never called, and no answer body is produced even though retrieval
succeeded. -/
theorem ask_missing_source_url (state : AppState)
    (llm : ChatRequest → Except String String) (q : QueryRequest)
    (vs : SearchFn) (docs : List Doc)
    (hvs : state.vector_store = some vs)
    (hsearch : vs q.query 3 = .ok docs)
    (hmiss : ∃ d ∈ docs, dictGet d.metadata "source_url" = none) :
    (ask state llm q).1 = .httpError 500 keyErrorMsg ∧
    (ask state llm q).2.completionCalls = [] ∧
    ∀ r s, (ask state llm q).1 ≠ .ok r s := by
  have hcontent : buildRetrievedContent docs = .error keyErrorMsg := by
    unfold buildRetrievedContent
    rw [docBlocks_missing docs hmiss]
    rfl
  have hmain : (ask state llm q).1 = .httpError 500 keyErrorMsg := by
    simp [ask, hvs, hsearch, hcontent]
  refine ⟨hmain, ?_, fun r s h => by rw [hmain] at h; exact AskResult.noConfusion h⟩
  simp [ask, hvs, hsearch, hcontent]

/-- C9 witness. -/
theorem ask_missing_source_url_witness :
    (ask { vector_store := some (fun _ _ => .ok
            [{ page_content := "Orphan chunk.", metadata := [("title", "Orphan")] }]),
           client := { api_key := some "gsk-test" } }
        (fun _ => .ok "unused") { query := "hi" }).1 =
      .httpError 500 keyErrorMsg :=
  (ask_missing_source_url
    { vector_store := some (fun _ _ => .ok
        [{ page_content := "Orphan chunk.", metadata := [("title", "Orphan")] }]),
      client := { api_key := some "gsk-test" } }
    (fun _ => .ok "unused") { query := "hi" }
    (fun _ _ => .ok
        [{ page_content := "Orphan chunk.", metadata := [("title", "Orphan")] }])
    [{ page_content := "Orphan chunk.", metadata := [("title", "Orphan")] }]
    rfl rfl
    ⟨{ page_content := "Orphan chunk.", metadata := [("title", "Orphan")] },
      by simp, rfl⟩).1

/-- C10: retrieving zero documents is not an error — the context section of
the prompt is the empty string, the completion client is still called once,
and the handler answers HTTP 200 with an empty `sources` list. -/
theorem ask_empty_retrieval (state : AppState)
    (llm : ChatRequest → Except String String) (q : QueryRequest)
    (vs : SearchFn) (text : String)
    (hvs : state.vector_store = some vs)
    (hsearch : vs q.query 3 = .ok ([] : List Doc))
    (hllm : groqCreate state.client llm (mkChatRequest (buildPrompt "" q.query)) =
      .ok text) :
    buildRetrievedContent [] = .ok "" ∧
    (ask state llm q).1 = .ok text [] ∧
    (ask state llm q).2.completionCalls = [mkChatRequest (buildPrompt "" q.query)] := by
  have hempty : buildRetrievedContent ([] : List Doc) = .ok "" := rfl
  refine ⟨hempty, ?_, ?_⟩ <;> simp [ask, hvs, hsearch, hempty, hllm]

/-- C10 witness. -/
theorem ask_empty_retrieval_witness :
    buildRetrievedContent [] = .ok "" ∧
    (ask { vector_store := some (fun _ _ => .ok []),
           client := { api_key := some "gsk-test" } }
        (fun _ => .ok "I don\x27t know") { query := "unanswerable" }).1 =
      .ok "I don\x27t know" [] ∧
    (ask { vector_store := some (fun _ _ => .ok []),
           client := { api_key := some "gsk-test" } }
        (fun _ => .ok "I don\x27t know") { query := "unanswerable" }).2.completionCalls =
      [mkChatRequest (buildPrompt "" "unanswerable")] :=
  ask_empty_retrieval
    { vector_store := some (fun _ _ => .ok []),
      client := { api_key := some "gsk-test" } }
    (fun _ => .ok "I don\x27t know") { query := "unanswerable" }
    (fun _ _ => .ok []) "I don\x27t know" rfl rfl rfl

end JioPayRag
